import Mathlib

/-!
Verification of the utxo-recycler core: a shallow embedding of the recycle
state machine, the deposit monitor's eligibility decision, the payment
processor, the BDK wallet helpers and the NWC payer, with theorems settling
the specification's claims against the code.
-/

namespace UtxoRecycler

/-! ## Recycle status (src/db/models.rs, `RecycleStatus`) -/

/-- The six persisted recycle statuses (src/db/models.rs lines 5-16). -/
inductive RecycleStatus where
  | awaitingDeposit
  | confirming
  | confirmed
  | paid
  | failed
  | donation
deriving DecidableEq, Repr

/-- `RecycleStatus::as_str` (src/db/models.rs lines 19-28). -/
def RecycleStatus.as_str : RecycleStatus → String
  | .awaitingDeposit => "awaiting_deposit"
  | .confirming => "confirming"
  | .confirmed => "confirmed"
  | .paid => "paid"
  | .failed => "failed"
  | .donation => "donation"

/-- `RecycleStatus::from_str` (src/db/models.rs lines 30-40): a match on the
six literals whose wildcard arm yields `Failed`. -/
def RecycleStatus.from_str (s : String) : RecycleStatus :=
  if s = "awaiting_deposit" then .awaitingDeposit
  else if s = "confirming" then .confirming
  else if s = "confirmed" then .confirmed
  else if s = "paid" then .paid
  else if s = "failed" then .failed
  else if s = "donation" then .donation
  else .failed

/-- Position of a status in the §4.5 forward order: `awaiting_deposit` before
`confirming` before `confirmed` before the three terminal statuses. -/
def RecycleStatus.rank : RecycleStatus → Nat
  | .awaitingDeposit => 0
  | .confirming => 1
  | .confirmed => 2
  | .paid => 3
  | .failed => 3
  | .donation => 3

/-- The three terminal statuses of §4.5. -/
def RecycleStatus.isTerminal : RecycleStatus → Bool
  | .paid => true
  | .failed => true
  | .donation => true
  | _ => false

/-! ## Wallet view and `check_address_deposit` (src/wallet/bdk.rs) -/

/-- A transaction output: its locking script (abstracted to an identifier)
and its value in satoshis (src value: `u64`, modelled as `Nat`). -/
structure TxOut where
  script : Nat
  value : Nat
deriving DecidableEq, Repr

/-- `bdk_wallet::chain::ChainPosition` as consumed by
`check_address_deposit` (src/wallet/bdk.rs lines 156-166): a confirmed
anchor carries its block height; an unconfirmed position carries nothing. -/
inductive ChainPosition where
  | confirmedAt (height : Nat)
  | unconfirmed
deriving DecidableEq, Repr

/-- A wallet-tracked transaction as iterated by `wallet.transactions()`:
its txid, its outputs and its chain position. -/
structure WalletTx where
  txid : String
  outputs : List TxOut
  pos : ChainPosition
deriving DecidableEq, Repr

/-- The in-memory wallet view behind the BDK mutex: the tracked
transactions in iteration order, the latest checkpoint height and the
script derived at each external keychain index (`peek_address`). -/
structure WalletView where
  txs : List WalletTx
  tipHeight : Nat
  scriptAt : Nat → Nat

/-- `DepositInfo` (src/wallet/bdk.rs lines 16-24). -/
structure DepositInfo where
  txid : String
  amount_sats : Nat
  confirmations : Nat
  block_height : Option Nat
deriving DecidableEq, Repr

/-- The confirmation/height computation of `check_address_deposit`
(src/wallet/bdk.rs lines 156-166): a confirmed anchor at height `h` yields
`current_height.saturating_sub(h) + 1` confirmations (Nat subtraction is
saturating) and `Some h`; unconfirmed yields `(0, None)`. -/
def depositInfoOf (view : WalletView) (tx : WalletTx) (o : TxOut) : DepositInfo :=
  match tx.pos with
  | .confirmedAt h =>
      { txid := tx.txid
        amount_sats := o.value
        confirmations := view.tipHeight - h + 1
        block_height := some h }
  | .unconfirmed =>
      { txid := tx.txid, amount_sats := o.value, confirmations := 0, block_height := none }

/-- Inner loop of `check_address_deposit` (src/wallet/bdk.rs lines 150-175):
walk the outputs of one transaction and return on the first output whose
script equals the expected script. -/
def checkOutputs (view : WalletView) (tx : WalletTx) (expected : Nat) :
    List TxOut → Option DepositInfo
  | [] => none
  | o :: rest =>
      if o.script = expected then some (depositInfoOf view tx o)
      else checkOutputs view tx expected rest

/-- Outer loop of `check_address_deposit` (src/wallet/bdk.rs lines 146-176):
walk the wallet transactions and return on the first transaction whose
output scan hits. -/
def checkTxs (view : WalletView) (expected : Nat) :
    List WalletTx → Option DepositInfo
  | [] => none
  | tx :: rest =>
      match checkOutputs view tx expected tx.outputs with
      | some info => some info
      | none => checkTxs view expected rest

/-- `check_address_deposit` (src/wallet/bdk.rs lines 138-179): the expected
script is the one derived at `address_index`; the address-string argument is
ignored by the source (`_address`). -/
def checkAddressDeposit (view : WalletView) (addressIndex : Nat) : Option DepositInfo :=
  checkTxs view (view.scriptAt addressIndex) view.txs

/-! ## Electrum parent-transaction lookups (src/wallet/bdk.rs) -/

/-- A transaction input: the outpoint `(txid, vout)` it spends. -/
structure TxIn where
  prevTxid : String
  prevVout : Nat
deriving DecidableEq, Repr

/-- A full transaction as fetched by `client.transaction_get`. -/
structure Tx where
  inputs : List TxIn
  outputs : List TxOut
deriving DecidableEq, Repr

/-- One entry of an electrum `script_get_history` response: a txid and its
block height (`0` or negative meaning unconfirmed; modelled as `Int` to
keep the `entry.height > 0` test of the source meaningful). -/
structure HistoryEntry where
  tx_hash : String
  height : Int
deriving DecidableEq, Repr

/-- A consistent view of the electrum backend: `transaction_get` (with
`none` for a fetch failure) and `script_get_history` keyed by script. -/
structure ElectrumView where
  getTx : String → Option Tx
  scriptHistory : Nat → List HistoryEntry

/-- First history entry for `prevTxid` with positive height, as scanned by
the inner loop of `get_max_input_creation_height`
(src/wallet/bdk.rs lines 370-384). -/
def findHistoryHeight (history : List HistoryEntry) (prevTxid : String) : Option Nat :=
  match history.find? (fun e => e.tx_hash = prevTxid && 0 < e.height) with
  | some e => some e.height.toNat
  | none => none

/-- The fold of `get_max_input_value` over the inputs
(src/wallet/bdk.rs lines 234-269): starting from `0`, fetch each parent
transaction (skipping fetch failures), read the output at the referenced
vout when it exists and keep the maximum value seen. -/
def maxInputValueAcc (chain : ElectrumView) : List TxIn → Nat → Nat
  | [], acc => acc
  | i :: rest, acc =>
      match chain.getTx i.prevTxid with
      | none => maxInputValueAcc chain rest acc
      | some prevTx =>
          match prevTx.outputs.get? i.prevVout with
          | none => maxInputValueAcc chain rest acc
          | some o => maxInputValueAcc chain rest (max acc o.value)

/-- `get_max_input_value` (src/wallet/bdk.rs lines 193-280): fetch the
transaction (`none` on failure), fold the maximum parent-output value over
its inputs, and report `none` when the maximum is `0` while inputs exist
("couldn't determine any input values"). -/
def getMaxInputValue (chain : ElectrumView) (txid : String) : Option Nat :=
  match chain.getTx txid with
  | none => none
  | some tx =>
      let m := maxInputValueAcc chain tx.inputs 0
      if m = 0 && !tx.inputs.isEmpty then none else some m

/-- The fold of `get_max_input_creation_height` over the inputs
(src/wallet/bdk.rs lines 326-385): for each input, fetch the parent
transaction, read the spent output's script, query the script history and
keep the maximum positive height recorded for the parent txid; every
failure along the way skips the input. -/
def maxInputCreationAcc (chain : ElectrumView) : List TxIn → Nat → Nat
  | [], acc => acc
  | i :: rest, acc =>
      match chain.getTx i.prevTxid with
      | none => maxInputCreationAcc chain rest acc
      | some prevTx =>
          match prevTx.outputs.get? i.prevVout with
          | none => maxInputCreationAcc chain rest acc
          | some o =>
              match findHistoryHeight (chain.scriptHistory o.script) i.prevTxid with
              | none => maxInputCreationAcc chain rest acc
              | some h => maxInputCreationAcc chain rest (max acc h)

/-- `get_max_input_creation_height` (src/wallet/bdk.rs lines 286-401):
fetch the deposit transaction (`none` on failure), fold the maximum parent
UTXO creation height over its inputs, and report `none` when the maximum is
`0` while inputs exist. -/
def getMaxInputCreationHeight (chain : ElectrumView) (txid : String) : Option Nat :=
  match chain.getTx txid with
  | none => none
  | some tx =>
      let m := maxInputCreationAcc chain tx.inputs 0
      if m = 0 && !tx.inputs.isEmpty then none else some m

/-! ## Persisted recycle state and store operations (src/db/models.rs) -/

/-- The persisted columns of one `recycles` row that the two worker loops
read and write. Timestamp columns (`created_at`, `updated_at`, `paid_at`)
are wall-clock stamps outside the embedding.

The `paymentAttempts` field is Modelled from the spec: the
`payment_attempts` column (§6.1) and its accessor are absent from
src/db/models.rs, while src/workers/payment_processor.rs reads
`recycle.payment_attempts`; the spec declares it an integer counter
defaulting to 0. -/
structure RecycleState where
  status : RecycleStatus
  depositTxid : Option String
  depositAmount : Option Nat
  depositConfs : Nat
  depositBlockHeight : Option Nat
  isEligible : Bool
  donationReason : Option String
  maxInputSats : Option Nat
  payoutAmount : Option Nat
  paymentPreimage : Option String
  paymentHash : Option String
  paymentAttempts : Nat
deriving DecidableEq, Repr

/-- A freshly created row (`RecycleRepository::create`,
src/db/models.rs lines 138-167, with the schema defaults of §6.1):
status `awaiting_deposit`, deposit columns NULL, `is_eligible` default 1,
`payment_attempts` default 0. -/
def initialRecycle : RecycleState :=
  { status := .awaitingDeposit
    depositTxid := none
    depositAmount := none
    depositConfs := 0
    depositBlockHeight := none
    isEligible := true
    donationReason := none
    maxInputSats := none
    payoutAmount := none
    paymentPreimage := none
    paymentHash := none
    paymentAttempts := 0 }

/-- `RecycleRepository::update_deposit_detected`
(src/db/models.rs lines 212-249): status becomes `confirmed` when
`confirmations >= required_confirmations`, else `confirming`; the deposit
columns are written and `is_eligible` is set to 1. -/
def updateDepositDetected (s : RecycleState) (txid : String) (amountSats : Nat)
    (confirmations : Nat) (blockHeight : Option Nat) (maxInputSats : Option Nat)
    (requiredConfirmations : Nat) : RecycleState :=
  { s with
    status := if requiredConfirmations ≤ confirmations then .confirmed else .confirming
    depositTxid := some txid
    depositAmount := some amountSats
    depositConfs := confirmations
    depositBlockHeight := blockHeight
    maxInputSats := maxInputSats
    isEligible := true }

/-- `RecycleRepository::update_as_donation`
(src/db/models.rs lines 253-284): status becomes `donation`, the deposit
columns and the reason are written and `is_eligible` is set to 0. -/
def updateAsDonation (s : RecycleState) (txid : String) (amountSats : Nat)
    (blockHeight : Option Nat) (maxInputSats : Option Nat) (reason : String) :
    RecycleState :=
  { s with
    status := .donation
    depositTxid := some txid
    depositAmount := some amountSats
    depositBlockHeight := blockHeight
    maxInputSats := maxInputSats
    isEligible := false
    donationReason := some reason }

/-- `RecycleRepository::update_confirmations`
(src/db/models.rs lines 286-314): status becomes `confirmed` when
`confirmations >= required_confirmations`, else `confirming`; only the
confirmation count is rewritten. -/
def updateConfirmationsOp (s : RecycleState) (confirmations : Nat)
    (requiredConfirmations : Nat) : RecycleState :=
  { s with
    status := if requiredConfirmations ≤ confirmations then .confirmed else .confirming
    depositConfs := confirmations }

/-- `RecycleRepository::mark_paid` (src/db/models.rs lines 316-342):
status becomes `paid` and the payout amount, preimage and payment hash are
written. -/
def markPaid (s : RecycleState) (payoutAmountSats : Nat) (paymentPreimage : String)
    (paymentHash : String) : RecycleState :=
  { s with
    status := .paid
    payoutAmount := some payoutAmountSats
    paymentPreimage := some paymentPreimage
    paymentHash := some paymentHash }

/-- `RecycleRepository::mark_failed` (src/db/models.rs lines 344-360):
only the status is rewritten, to `failed`. -/
def markFailed (s : RecycleState) : RecycleState :=
  { s with status := .failed }

/-- Modelled from the spec: `increment_payment_attempts` is absent from
src/db/models.rs (src/workers/payment_processor.rs line 61 calls it); §4.1
specifies `increment_payment_attempts(id) → new count`, persisting the
counter before the send attempt. -/
def incrementPaymentAttempts (s : RecycleState) : RecycleState :=
  { s with paymentAttempts := s.paymentAttempts + 1 }

/-! ## Configuration (src/config.rs) -/

/-- The configuration options the two loops read (src/config.rs).
`payoutMultiplierNum` is the significand of the `f64` field
`payout_multiplier` scaled by `2^52` (its value for a multiplier in
`[1, 2)`, e.g. the default `1.01`). -/
structure Config where
  payoutMultiplierNum : Nat
  requiredConfirmations : Nat
  cutoffBlockHeight : Nat
  maxInputSats : Nat

/-! ## Deposit monitor decision (src/workers/deposit_monitor.rs) -/

/-- The store write a monitor iteration chooses for one pending recycle. -/
inductive MonitorAction where
  | donate (txid : String) (amountSats : Nat) (blockHeight : Option Nat)
      (maxInputSats : Option Nat) (reason : String)
  | record (txid : String) (amountSats : Nat) (confirmations : Nat)
      (blockHeight : Option Nat) (maxInputSats : Option Nat)
  | updateConfs (confirmations : Nat)
deriving DecidableEq, Repr

/-- The `AwaitingDeposit` arm of `check_deposits`
(src/workers/deposit_monitor.rs lines 75-205). With a confirmed deposit the
monitor resolves the maximum creation height of the parent UTXOs
(`get_max_input_creation_height`): a known height at or above the cutoff
donates with reason `block_height`; an unknown height donates with reason
`block_height_unknown`; otherwise the maximum parent-output value
(`get_max_input_value`) at or above the configured limit donates with
reason `input_too_large`, and any other outcome records the deposit. An
unconfirmed deposit is recorded with no height or input information. -/
def monitorDecideAwaiting (cfg : Config) (chain : ElectrumView)
    (deposit : DepositInfo) : MonitorAction :=
  match deposit.block_height with
  | some depositBlockHeight =>
      match getMaxInputCreationHeight chain deposit.txid with
      | some creationHeight =>
          if cfg.cutoffBlockHeight ≤ creationHeight then
            .donate deposit.txid deposit.amount_sats (some creationHeight) none "block_height"
          else
            match getMaxInputValue chain deposit.txid with
            | some maxInputValue =>
                if cfg.maxInputSats ≤ maxInputValue then
                  .donate deposit.txid deposit.amount_sats (some creationHeight)
                    (some maxInputValue) "input_too_large"
                else
                  .record deposit.txid deposit.amount_sats deposit.confirmations
                    (some creationHeight) (some maxInputValue)
            | none =>
                .record deposit.txid deposit.amount_sats deposit.confirmations
                  (some creationHeight) none
      | none =>
          .donate deposit.txid deposit.amount_sats (some depositBlockHeight) none
            "block_height_unknown"
  | none =>
      .record deposit.txid deposit.amount_sats deposit.confirmations none none

/-- The `Confirming` arm of `check_deposits`
(src/workers/deposit_monitor.rs lines 206-283). Eligibility runs only when
the deposit now has a block height and the stored `deposit_block_height` is
still NULL; a known creation height at or above the cutoff donates with
reason `block_height` and a known over-limit input value donates with
reason `input_too_large` — an unknown creation height is tolerated here —
otherwise the confirmation count is updated. -/
def monitorDecideConfirming (cfg : Config) (chain : ElectrumView)
    (storedBlockHeight : Option Nat) (deposit : DepositInfo) : MonitorAction :=
  if deposit.block_height.isSome && storedBlockHeight.isNone then
    let creation := getMaxInputCreationHeight chain deposit.txid
    match creation with
    | some creationHeight =>
        if cfg.cutoffBlockHeight ≤ creationHeight then
          .donate deposit.txid deposit.amount_sats (some creationHeight) none "block_height"
        else
          match getMaxInputValue chain deposit.txid with
          | some maxInputValue =>
              if cfg.maxInputSats ≤ maxInputValue then
                .donate deposit.txid deposit.amount_sats (some creationHeight)
                  (some maxInputValue) "input_too_large"
              else .updateConfs deposit.confirmations
          | none => .updateConfs deposit.confirmations
    | none =>
        match getMaxInputValue chain deposit.txid with
        | some maxInputValue =>
            if cfg.maxInputSats ≤ maxInputValue then
              .donate deposit.txid deposit.amount_sats none
                (some maxInputValue) "input_too_large"
            else .updateConfs deposit.confirmations
        | none => .updateConfs deposit.confirmations
  else .updateConfs deposit.confirmations

/-- Apply a monitor decision as the corresponding repository write. -/
def applyMonitorAction (cfg : Config) (s : RecycleState) : MonitorAction → RecycleState
  | .donate txid amount bh maxIn reason => updateAsDonation s txid amount bh maxIn reason
  | .record txid amount confs bh maxIn =>
      updateDepositDetected s txid amount confs bh maxIn cfg.requiredConfirmations
  | .updateConfs confs => updateConfirmationsOp s confs cfg.requiredConfirmations

/-! ## Exact model of the `f64` payout computation
(src/workers/payment_processor.rs line 49)

The processor computes `(deposit_amount as f64 * payout_multiplier) as u64`.
IEEE-754 binary64 arithmetic is deterministic: every positive normal `f64`
is an exact dyadic rational `m * 2^(k-52)` with significand
`2^52 ≤ m < 2^53`, and multiplication rounds the exact product to the
nearest such value, ties to even. A multiplier in `[1, 2)` — the default
`1.01` in particular — is `multNum / 2^52` for a significand `multNum`,
and all values here are positive and far from overflow and underflow, so
the whole computation is carried out below on scaled naturals. -/

/-- Fuel-driven floor binary logarithm (the fuel `n` itself suffices). -/
def log2Aux : Nat → Nat → Nat
  | 0, _ => 0
  | fuel + 1, n => if n ≤ 1 then 0 else log2Aux fuel (n / 2) + 1

/-- Floor of the binary logarithm: for `n ≥ 1`, the `k` with
`2^k ≤ n < 2^(k+1)`. -/
def natLog2 (n : Nat) : Nat :=
  log2Aux n n

/-- Round `a / b` (for `b > 0`) to the nearest natural, ties to even. -/
def rneDiv (a b : Nat) : Nat :=
  let q := a / b
  let r := a % b
  if 2 * r < b then q
  else if b < 2 * r then q + 1
  else if q % 2 = 0 then q else q + 1

/-- `n as f64` for a `u64` value: round `n` to the nearest binary64, i.e.
to the nearest multiple of `2^(k-52)` where `2^k ≤ n < 2^(k+1)` (exact for
`n < 2^53`); the result is again an integer. -/
def f64OfNat (n : Nat) : Nat :=
  let k := natLog2 n
  if k ≤ 52 then n else rneDiv n (2 ^ (k - 52)) * 2 ^ (k - 52)

/-- The significand of the binary64 value nearest to `101/100`: the default
`payout_multiplier` literal `1.01` (src/config.rs lines 52-55) scaled by
`2^52`. -/
def f64OnePointOhOneNum : Nat :=
  rneDiv (101 * 2 ^ 52) 100

/-- The payout computation of the processor
(src/workers/payment_processor.rs line 49):
`(deposit_amount as f64 * state.config.payout_multiplier) as u64`, for a
multiplier whose binary64 value is `multNum / 2^52` (any multiplier in
`[1, 2)`, e.g. the default `1.01`). The exact product is `P / 2^52` with
`P = f64OfNat deposit * multNum`; the `f64` multiplication rounds it to
the nearest value on the binade grid `2^(k-52)`, and `as u64` truncates
toward zero, saturating at `u64::MAX`. -/
def payoutSats (multNum : Nat) (depositAmount : Nat) : Nat :=
  let p := f64OfNat depositAmount * multNum
  if p = 0 then 0
  else
    let k := natLog2 (p / 2 ^ 52)
    min (rneDiv p (2 ^ k) * 2 ^ k / 2 ^ 52) (2 ^ 64 - 1)

/-! ## NWC payer (src/lightning/nwc.rs) -/

/-- `Nip47Error` (src/lightning/nwc.rs lines 42-46). -/
structure Nip47Error where
  code : String
  message : String
deriving DecidableEq, Repr

/-- `Nip47Response` with its optional `pay_invoice` result
(src/lightning/nwc.rs lines 30-40); the result carries only a `preimage`
field — the deserializer parses no payment hash. -/
structure Nip47Response where
  result_type : Option String
  result_preimage : Option String
  error : Option Nip47Error
deriving DecidableEq, Repr

/-- `PaymentResult` (src/lightning/nwc.rs lines 12-16). -/
structure PaymentResult where
  preimage : String
  payment_hash : String
deriving DecidableEq, Repr

/-- The response handling of one polled NWC event
(src/lightning/nwc.rs lines 133-147): an error field fails the call, a
result field succeeds with `PaymentResult { preimage: result.preimage,
payment_hash: result.preimage }`, and an empty response keeps polling
(`none`). -/
def handleNwcResponse (r : Nip47Response) : Option (Except Nip47Error PaymentResult) :=
  match r.error with
  | some e => some (.error e)
  | none =>
      match r.result_preimage with
      | some preimage => some (.ok { preimage := preimage, payment_hash := preimage })
      | none => none

/-! ## SHA-256 (FIPS 180-4)

The claims state that a stored preimage must hash via SHA-256 to the
stored payment hash; the repository delegates hashing to a library, so the
function is defined here from FIPS 180-4 to interpret that property.
Bytes are `Nat` values below 256; words are `Nat` values below `2^32`. -/

/-- Truncate to a 32-bit word. -/
def w32 (n : Nat) : Nat := n % 4294967296

/-- 32-bit right rotation. -/
def rotr32 (n x : Nat) : Nat :=
  w32 ((x >>> n) ||| (x <<< (32 - n)))

/-- 32-bit complement. -/
def not32 (x : Nat) : Nat := 4294967295 - w32 x

/-- SHA-256 `Ch`. -/
def sha256Ch (x y z : Nat) : Nat := (x &&& y) ^^^ (not32 x &&& z)

/-- SHA-256 `Maj`. -/
def sha256Maj (x y z : Nat) : Nat := (x &&& y) ^^^ (x &&& z) ^^^ (y &&& z)

/-- SHA-256 `Σ0`. -/
def sha256BigSigma0 (x : Nat) : Nat := rotr32 2 x ^^^ rotr32 13 x ^^^ rotr32 22 x

/-- SHA-256 `Σ1`. -/
def sha256BigSigma1 (x : Nat) : Nat := rotr32 6 x ^^^ rotr32 11 x ^^^ rotr32 25 x

/-- SHA-256 `σ0`. -/
def sha256SmallSigma0 (x : Nat) : Nat := rotr32 7 x ^^^ rotr32 18 x ^^^ (x >>> 3)

/-- SHA-256 `σ1`. -/
def sha256SmallSigma1 (x : Nat) : Nat := rotr32 17 x ^^^ rotr32 19 x ^^^ (x >>> 10)

/-- The 64 SHA-256 round constants (FIPS 180-4 §4.2.2, in decimal). -/
def sha256K : List Nat :=
  [1116352408, 1899447441, 3049323471, 3921009573, 961987163,
   1508970993, 2453635748, 2870763221, 3624381080, 310598401,
   607225278, 1426881987, 1925078388, 2162078206, 2614888103,
   3248222580, 3835390401, 4022224774, 264347078, 604807628,
   770255983, 1249150122, 1555081692, 1996064986, 2554220882,
   2821834349, 2952996808, 3210313671, 3336571891, 3584528711,
   113926993, 338241895, 666307205, 773529912, 1294757372,
   1396182291, 1695183700, 1986661051, 2177026350, 2456956037,
   2730485921, 2820302411, 3259730800, 3345764771, 3516065817,
   3600352804, 4094571909, 275423344, 430227734, 506948616,
   659060556, 883997877, 958139571, 1322822218, 1537002063,
   1747873779, 1955562222, 2024104815, 2227730452, 2361852424,
   2428436474, 2756734187, 3204031479, 3329325298]

/-- The SHA-256 initial hash value (FIPS 180-4 §5.3.3, in decimal). -/
def sha256InitH : List Nat :=
  [1779033703, 3144134277, 1013904242, 2773480762,
   1359893119, 2600822924, 528734635, 1541459225]

/-- Big-endian assembly of 4 bytes into a word. -/
def word32OfBytes : List Nat → Nat
  | [a, b, c, d] => ((a * 256 + b) * 256 + c) * 256 + d
  | _ => 0

/-- Split a byte list into big-endian 32-bit words. -/
def wordsOfBytes : List Nat → List Nat
  | a :: b :: c :: d :: rest => word32OfBytes [a, b, c, d] :: wordsOfBytes rest
  | _ => []

/-- SHA-256 padding: append `0x80`, zero bytes to a length ≡ 56 (mod 64),
then the 64-bit big-endian bit length. -/
def sha256Pad (msg : List Nat) : List Nat :=
  let bitLen := msg.length * 8
  let zeros := (119 - msg.length % 64) % 64
  msg ++ [0x80] ++ List.replicate zeros 0 ++
    [w32 (bitLen >>> 56) % 256, (bitLen >>> 48) % 256, (bitLen >>> 40) % 256,
     (bitLen >>> 32) % 256, (bitLen >>> 24) % 256, (bitLen >>> 16) % 256,
     (bitLen >>> 8) % 256, bitLen % 256]

/-- Extend a 16-word block to the 64-word message schedule. -/
def sha256Schedule (w : List Nat) (t : Nat) : List Nat :=
  match t with
  | 0 => w
  | t + 1 =>
      let w' := sha256Schedule w t
      let i := w'.length
      w' ++ [w32 (sha256SmallSigma1 (w'.getD (i - 2) 0) + w'.getD (i - 7) 0 +
                  sha256SmallSigma0 (w'.getD (i - 15) 0) + w'.getD (i - 16) 0)]

/-- One SHA-256 round: update the working variables with `(kᵢ, wᵢ)`. -/
def sha256Round (st : List Nat) (kw : Nat × Nat) : List Nat :=
  match st with
  | [a, b, c, d, e, f, g, h] =>
      let t1 := w32 (h + sha256BigSigma1 e + sha256Ch e f g + kw.1 + kw.2)
      let t2 := w32 (sha256BigSigma0 a + sha256Maj a b c)
      [w32 (t1 + t2), a, b, c, w32 (d + t1), e, f, g]
  | st => st

/-- Compress one 16-word block into the running hash. -/
def sha256Compress (h : List Nat) (block : List Nat) : List Nat :=
  let w := sha256Schedule block 48
  let final := (sha256K.zip w).foldl sha256Round h
  (h.zip final).map fun p => w32 (p.1 + p.2)

/-- Split padded words into 16-word blocks (the input length is always a
multiple of 16; a short remainder would form a final short block). -/
def sha256Blocks : List Nat → List (List Nat)
  | w0 :: w1 :: w2 :: w3 :: w4 :: w5 :: w6 :: w7 ::
      w8 :: w9 :: w10 :: w11 :: w12 :: w13 :: w14 :: w15 :: rest =>
      [w0, w1, w2, w3, w4, w5, w6, w7, w8, w9, w10, w11, w12, w13, w14, w15] ::
        sha256Blocks rest
  | [] => []
  | ws => [ws]

/-- Emit a word as 4 big-endian bytes. -/
def bytesOfWord32 (x : Nat) : List Nat :=
  [(x >>> 24) % 256, (x >>> 16) % 256, (x >>> 8) % 256, x % 256]

/-- SHA-256 of a byte list (FIPS 180-4). -/
def sha256 (msg : List Nat) : List Nat :=
  ((sha256Blocks (wordsOfBytes (sha256Pad msg))).foldl sha256Compress sha256InitH).flatMap
    bytesOfWord32

/-- Value of one lowercase-hex digit. -/
def hexDigitVal (c : Char) : Nat :=
  if '0' ≤ c ∧ c ≤ '9' then c.toNat - 48
  else if 'a' ≤ c ∧ c ≤ 'f' then c.toNat - 87
  else 0

/-- Decode a lowercase-hex string into bytes. -/
def hexDecodeList : List Char → List Nat
  | hi :: lo :: rest => (hexDigitVal hi * 16 + hexDigitVal lo) :: hexDecodeList rest
  | _ => []

/-- Decode a lowercase-hex string into bytes. -/
def hexDecode (s : String) : List Nat :=
  hexDecodeList s.data

/-! ## The two reconciliation loops as a step relation on one recycle row

Each iteration of the deposit monitor (src/workers/deposit_monitor.rs)
selects the rows with status `awaiting_deposit` or `confirming`
(`find_pending_deposits`, src/db/models.rs lines 203-210) and performs at
most one store write per row; each iteration of the payment processor
(src/workers/payment_processor.rs) selects the rows with status
`confirmed` (`find_by_status`) and performs `mark_failed`, or an attempt
increment optionally followed by `mark_paid`. A step below is one such
per-row handling; the wallet observation (`chain`, `deposit`) and the
remote-wallet response are free parameters of the step. Rows the
iteration's status filter does not select get no step. -/

/-- `MAX_PAYMENT_ATTEMPTS` (src/workers/payment_processor.rs line 10). -/
def maxPaymentAttempts : Nat := 10

inductive Step (cfg : Config) : RecycleState → RecycleState → Prop
  /-- Monitor, `AwaitingDeposit` arm with a detected deposit
  (src/workers/deposit_monitor.rs lines 75-205). -/
  | monitorAwaiting (chain : ElectrumView) (deposit : DepositInfo) (s : RecycleState)
      (hst : s.status = .awaitingDeposit) :
      Step cfg s (applyMonitorAction cfg s (monitorDecideAwaiting cfg chain deposit))
  /-- Monitor, `Confirming` arm with a detected deposit
  (src/workers/deposit_monitor.rs lines 206-283); eligibility re-evaluation
  is guarded by the stored `deposit_block_height`. -/
  | monitorConfirming (chain : ElectrumView) (deposit : DepositInfo) (s : RecycleState)
      (hst : s.status = .confirming) :
      Step cfg s
        (applyMonitorAction cfg s
          (monitorDecideConfirming cfg chain s.depositBlockHeight deposit))
  /-- Processor: attempt bound reached, `mark_failed`
  (src/workers/payment_processor.rs lines 30-38). -/
  | processorMarkFailed (s : RecycleState)
      (hst : s.status = .confirmed) (hmax : maxPaymentAttempts ≤ s.paymentAttempts) :
      Step cfg s (markFailed s)
  /-- Processor: attempt whose invoice fetch or payment fails (or times
  out); only the pre-attempt counter increment is persisted
  (src/workers/payment_processor.rs lines 61-82 and 102-111). -/
  | processorAttemptFailed (s : RecycleState) (amt : Nat)
      (hst : s.status = .confirmed) (hlt : s.paymentAttempts < maxPaymentAttempts)
      (hamt : s.depositAmount = some amt) :
      Step cfg s (incrementPaymentAttempts s)
  /-- Processor: attempt whose NWC call returns a success response;
  `mark_paid` with the computed payout and the response's preimage and
  payment hash (src/workers/payment_processor.rs lines 85-101). -/
  | processorAttemptPaid (s : RecycleState) (amt : Nat) (resp : Nip47Response)
      (r : PaymentResult)
      (hst : s.status = .confirmed) (hlt : s.paymentAttempts < maxPaymentAttempts)
      (hamt : s.depositAmount = some amt)
      (hr : handleNwcResponse resp = some (.ok r)) :
      Step cfg s
        (markPaid (incrementPaymentAttempts s)
          (payoutSats cfg.payoutMultiplierNum amt) r.preimage r.payment_hash)

/-! ## `increment_address_index` under concurrent creations
(src/db/models.rs lines 362-378)

`increment_address_index` is two separate statements on the pool: a
`SELECT next_address_index` (via `get_next_address_index`) followed by an
`UPDATE ... SET next_address_index = next_address_index + 1`, returning
the selected value. Two concurrent creation requests
(src/api/routes.rs line 332) each run this pair; the database serializes
the individual statements but nothing makes the pair atomic. The model
interleaves the two statement pairs of two concurrent calls over the
shared `wallet_state` counter. -/

/-- Progress of one in-flight `increment_address_index` call: not yet
started, holding the value its `SELECT` read, or returned that value after
its `UPDATE`. -/
inductive AllocTask where
  | notStarted
  | readValue (v : Nat)
  | returned (v : Nat)
deriving DecidableEq, Repr

/-- The shared `wallet_state.next_address_index` counter and two
concurrent `increment_address_index` calls. -/
structure AllocSys where
  nextAddressIndex : Nat
  call1 : AllocTask
  call2 : AllocTask
deriving DecidableEq, Repr

/-- One database statement of either call: its `SELECT` reads the current
counter (src/db/models.rs lines 362-368, 371); its `UPDATE` increments the
counter by one and the call returns the value it read
(src/db/models.rs lines 373-377). -/
inductive AllocStep : AllocSys → AllocSys → Prop
  | select1 (c : Nat) (t : AllocTask) :
      AllocStep ⟨c, .notStarted, t⟩ ⟨c, .readValue c, t⟩
  | update1 (c v : Nat) (t : AllocTask) :
      AllocStep ⟨c, .readValue v, t⟩ ⟨c + 1, .returned v, t⟩
  | select2 (c : Nat) (t : AllocTask) :
      AllocStep ⟨c, t, .notStarted⟩ ⟨c, t, .readValue c⟩
  | update2 (c v : Nat) (t : AllocTask) :
      AllocStep ⟨c, t, .readValue v⟩ ⟨c + 1, t, .returned v⟩

/-! ## Concrete fixtures for the witnesses and counterexamples -/

/-- Fixture configuration: cutoff block height 900000, maximum input 1000
sats, 1 required confirmation, the default multiplier 1.01. -/
def cfgFix : Config :=
  { payoutMultiplierNum := f64OnePointOhOneNum
    requiredConfirmations := 1
    cutoffBlockHeight := 900000
    maxInputSats := 1000 }

/-- Fixture parent transaction: one output of 400 sats at script 7. -/
def parentTxFix : Tx := { inputs := [], outputs := [⟨7, 400⟩] }

/-- Fixture parent transaction with a zero-value output at script 7. -/
def parentTxZero : Tx := { inputs := [], outputs := [⟨7, 0⟩] }

/-- Fixture deposit transaction `"d"`: spends `"p"` output 0, pays 500
sats to script 5. -/
def depositTxFix : Tx := { inputs := [⟨"p", 0⟩], outputs := [⟨5, 500⟩] }

/-- Fixture chain where the parent UTXO was created at block 800000
(before the cutoff). -/
def chainOldParent : ElectrumView :=
  { getTx := fun t => if t = "d" then some depositTxFix
      else if t = "p" then some parentTxFix else none
    scriptHistory := fun s => if s = 7 then [⟨"p", 800000⟩] else [] }

/-- Fixture chain where the parent UTXO was created at block 950000
(after the cutoff). -/
def chainNewParent : ElectrumView :=
  { getTx := fun t => if t = "d" then some depositTxFix
      else if t = "p" then some parentTxFix else none
    scriptHistory := fun s => if s = 7 then [⟨"p", 950000⟩] else [] }

/-- Fixture chain where the parent transaction cannot be fetched. -/
def chainNoParent : ElectrumView :=
  { getTx := fun t => if t = "d" then some depositTxFix else none
    scriptHistory := fun _ => [] }

/-- Fixture chain where the parent resolves with a zero-value output
created at block 800000, so the creation height is known but
`get_max_input_value` reports `None`. -/
def chainZeroParent : ElectrumView :=
  { getTx := fun t => if t = "d" then some depositTxFix
      else if t = "p" then some parentTxZero else none
    scriptHistory := fun s => if s = 7 then [⟨"p", 800000⟩] else [] }

/-- Fixture deposit observation: txid `"d"`, 500 sats, 3 confirmations,
confirmed at block 950000. -/
def depAt950k : DepositInfo :=
  { txid := "d", amount_sats := 500, confirmations := 3, block_height := some 950000 }

/-- Fixture deposit observation: txid `"d"`, 500 sats, 3 confirmations,
confirmed at block 850000, below the cutoff 900000. -/
def depAt850k : DepositInfo :=
  { txid := "d", amount_sats := 500, confirmations := 3, block_height := some 850000 }

/-- Fixture wallet view: two confirmed transactions pay the script at
index 0, one of 300 sats at block 800000 and one of 400 sats at block
800100; the tip is at 800105. -/
def viewTwoDeposits : WalletView :=
  { txs := [⟨"t1", [⟨9, 300⟩], .confirmedAt 800000⟩,
            ⟨"t2", [⟨9, 400⟩], .confirmedAt 800100⟩]
    tipHeight := 800105
    scriptAt := fun i => if i = 0 then 9 else 0 }

/-- A 64-character hex string of zeros (a syntactically well-formed
32-byte preimage). -/
def zeros64 : String :=
  String.mk (List.replicate 64 '0')

/-- Fixture NWC success response carrying the all-zero preimage. -/
def respOkFix : Nip47Response :=
  { result_type := some "pay_invoice", result_preimage := some zeros64, error := none }

/-- Fixture confirmed row: 500 sats deposited, ten payment attempts
already recorded. -/
def confirmedFix : RecycleState :=
  { initialRecycle with
    status := .confirmed
    depositTxid := some "d"
    depositAmount := some 500
    depositConfs := 3
    depositBlockHeight := some 800000
    maxInputSats := some 400
    paymentAttempts := 10 }

/-- Fixture confirmed row with the large deposit `139344047876599` sats
and no attempts yet. -/
def bigDepositFix : RecycleState :=
  { initialRecycle with
    status := .confirmed
    depositTxid := some "d"
    depositAmount := some 139344047876599
    depositConfs := 3
    depositBlockHeight := some 800000
    maxInputSats := some 400 }

/-! ## Invariants -/

/-- The donation bookkeeping invariant: a stored `donation_reason` occurs
only on a `donation` row and is `block_height` (with a recorded height at
or above the cutoff), `input_too_large` (with a recorded maximum input at
or above the limit) or `block_height_unknown`; and every `donation` row
carries a reason. -/
def DonationInv (cfg : Config) (s : RecycleState) : Prop :=
  (∀ r, s.donationReason = some r →
    s.status = .donation ∧
    (r = "block_height" ∧
        (∃ h, s.depositBlockHeight = some h ∧ cfg.cutoffBlockHeight ≤ h) ∨
      r = "input_too_large" ∧
        (∃ v, s.maxInputSats = some v ∧ cfg.maxInputSats ≤ v) ∨
      r = "block_height_unknown")) ∧
  (s.status = .donation → s.donationReason ≠ none)

/-! ## Shape of the monitor decisions -/

/-- Every outcome of the `AwaitingDeposit` arm is a `block_height`
donation recording a creation height at or above the cutoff, an
`input_too_large` donation recording a parent-output value at or above the
limit, a `block_height_unknown` donation, or a plain deposit record. -/
theorem monitorDecideAwaiting_shape (cfg : Config) (chain : ElectrumView)
    (dep : DepositInfo) :
    (∃ bh, monitorDecideAwaiting cfg chain dep =
        .donate dep.txid dep.amount_sats (some bh) none "block_height" ∧
        cfg.cutoffBlockHeight ≤ bh) ∨
    (∃ bh v, monitorDecideAwaiting cfg chain dep =
        .donate dep.txid dep.amount_sats (some bh) (some v) "input_too_large" ∧
        cfg.maxInputSats ≤ v) ∨
    (∃ bh, monitorDecideAwaiting cfg chain dep =
        .donate dep.txid dep.amount_sats (some bh) none "block_height_unknown") ∨
    (∃ bh mi, monitorDecideAwaiting cfg chain dep =
        .record dep.txid dep.amount_sats dep.confirmations bh mi) := by
  unfold monitorDecideAwaiting
  rcases hbh : dep.block_height with _ | h
  · exact .inr (.inr (.inr ⟨none, none, rfl⟩))
  · rcases hc : getMaxInputCreationHeight chain dep.txid with _ | ch
    · exact .inr (.inr (.inl ⟨h, rfl⟩))
    · by_cases hcut : cfg.cutoffBlockHeight ≤ ch
      · exact .inl ⟨ch, by simp [hcut], hcut⟩
      · rcases hv : getMaxInputValue chain dep.txid with _ | v
        · exact .inr (.inr (.inr ⟨some ch, none, by simp [hcut]⟩))
        · by_cases hlim : cfg.maxInputSats ≤ v
          · exact .inr (.inl ⟨ch, v, by simp [hcut, hlim], hlim⟩)
          · exact .inr (.inr (.inr ⟨some ch, some v, by simp [hcut, hlim]⟩))

/-- Every outcome of the `Confirming` arm is a `block_height` donation
recording a creation height at or above the cutoff, an `input_too_large`
donation recording a parent-output value at or above the limit, or a
confirmation-count update. -/
theorem monitorDecideConfirming_shape (cfg : Config) (chain : ElectrumView)
    (storedBh : Option Nat) (dep : DepositInfo) :
    (∃ bh, monitorDecideConfirming cfg chain storedBh dep =
        .donate dep.txid dep.amount_sats (some bh) none "block_height" ∧
        cfg.cutoffBlockHeight ≤ bh) ∨
    (∃ bh v, monitorDecideConfirming cfg chain storedBh dep =
        .donate dep.txid dep.amount_sats bh (some v) "input_too_large" ∧
        cfg.maxInputSats ≤ v) ∨
    (monitorDecideConfirming cfg chain storedBh dep = .updateConfs dep.confirmations) := by
  unfold monitorDecideConfirming
  by_cases hrun : dep.block_height.isSome && storedBh.isNone
  · simp only [hrun, if_true]
    rcases hc : getMaxInputCreationHeight chain dep.txid with _ | ch
    · rcases hv : getMaxInputValue chain dep.txid with _ | v
      · exact .inr (.inr rfl)
      · by_cases hlim : cfg.maxInputSats ≤ v
        · exact .inr (.inl ⟨none, v, by simp [hlim], hlim⟩)
        · exact .inr (.inr (by simp [hlim]))
    · by_cases hcut : cfg.cutoffBlockHeight ≤ ch
      · exact .inl ⟨ch, by simp [hcut], hcut⟩
      · rcases hv : getMaxInputValue chain dep.txid with _ | v
        · exact .inr (.inr (by simp [hcut]))
        · by_cases hlim : cfg.maxInputSats ≤ v
          · exact .inr (.inl ⟨some ch, v, by simp [hcut, hlim], hlim⟩)
          · exact .inr (.inr (by simp [hcut, hlim]))
  · simp [hrun]

/-- The inner output loop returns the first output paying the expected
script. -/
theorem checkOutputs_eq_find (view : WalletView) (tx : WalletTx) (expected : Nat)
    (outs : List TxOut) :
    checkOutputs view tx expected outs =
      (outs.find? (fun o => o.script = expected)).map (depositInfoOf view tx) := by
  induction outs with
  | nil => rfl
  | cons o rest ih =>
      by_cases h : o.script = expected
      · rw [checkOutputs, if_pos h, List.find?_cons_of_pos _ (by simpa using h)]
        rfl
      · rw [checkOutputs, if_neg h, List.find?_cons_of_neg _ (by simpa using h), ih]

/-- The outer transaction loop returns the result of the output scan of
the first transaction having an output that pays the expected script. -/
theorem checkTxs_eq_find (view : WalletView) (expected : Nat) (txs : List WalletTx) :
    checkTxs view expected txs =
      (txs.find? (fun tx => tx.outputs.any (fun o => o.script = expected))).bind
        (fun tx => (tx.outputs.find? (fun o => o.script = expected)).map
          (depositInfoOf view tx)) := by
  induction txs with
  | nil => rfl
  | cons tx rest ih =>
      by_cases hany : tx.outputs.any (fun o => o.script = expected)
      · rw [List.find?_cons_of_pos _ (by simpa using hany), Option.some_bind]
        rcases hfind : tx.outputs.find? (fun o => o.script = expected) with _ | o
        · rw [List.find?_eq_none] at hfind
          rw [List.any_eq_true] at hany
          obtain ⟨o, ho, hos⟩ := hany
          exact absurd hos (hfind o ho)
        · rw [checkTxs, checkOutputs_eq_find, hfind]
          rfl
      · rw [List.find?_cons_of_neg _ (by simpa using hany), checkTxs,
          checkOutputs_eq_find]
        rcases hfind : tx.outputs.find? (fun o => o.script = expected) with _ | o
        · simpa [hfind] using ih
        · have := List.find?_some hfind
          simp only [decide_eq_true_eq] at this
          exact absurd (List.any_eq_true.mpr
            ⟨o, List.mem_of_find?_eq_some hfind, by simpa using this⟩) hany

end UtxoRecycler

namespace UtxoRecycler

/-- C3 counterexample: in a wallet view where two transactions (`t1` of
300 sats and `t2` of 400 sats) pay the script at index 0,
`check_address_deposit` returns only the first transaction with
`amount_sats = 300` — not the aggregate 700 — and its txid list (a single
txid) omits `t2`. -/
theorem check_address_deposit_no_aggregation_counterexample :
    ((viewTwoDeposits.txs.map fun tx =>
        tx.outputs.any fun o => o.script = viewTwoDeposits.scriptAt 0) = [true, true]) ∧
    checkAddressDeposit viewTwoDeposits 0 =
      some { txid := "t1", amount_sats := 300, confirmations := 106,
             block_height := some 800000 } ∧
    ∀ info, checkAddressDeposit viewTwoDeposits 0 = some info →
      info.amount_sats ≠ 700 ∧ info.txid ≠ "t2" := by decide

/-- C3 amended: `check_address_deposit(index)` does not aggregate; it
returns the deposit information of the first transaction in the wallet
view with an output paying the script at `index` — that transaction's
txid, the value of its first matching output alone as `amount_sats`, and
that transaction's confirmation count (`0` and no height if it is
unconfirmed) — and `None` when no transaction pays the script. -/
theorem check_address_deposit_first_match (view : WalletView) (index : Nat) :
    checkAddressDeposit view index =
      (view.txs.find? (fun tx =>
          tx.outputs.any (fun o => o.script = view.scriptAt index))).bind
        (fun tx => (tx.outputs.find? (fun o => o.script = view.scriptAt index)).map
          (depositInfoOf view tx)) :=
  checkTxs_eq_find view (view.scriptAt index) view.txs

end UtxoRecycler

namespace UtxoRecycler

/-- C10: `RecycleStatus` string conversion round-trips on the six defined
statuses, and `from_str` maps every string outside the six literals to
`Failed`, so an unrecognized stored status text is read back as `failed`. -/
theorem status_from_str_roundtrip_and_default :
    (∀ s : RecycleStatus, RecycleStatus.from_str s.as_str = s) ∧
    (∀ str : String,
      str ∉ ["awaiting_deposit", "confirming", "confirmed", "paid", "failed", "donation"] →
      RecycleStatus.from_str str = .failed) := by
  constructor
  · intro s
    cases s <;> rfl
  · intro str hstr
    simp only [List.mem_cons, List.not_mem_nil, or_false, not_or] at hstr
    obtain ⟨h1, h2, h3, h4, h5, h6⟩ := hstr
    simp [RecycleStatus.from_str, h1, h2, h3, h4, h5, h6]

/-- Witness for C10 at concrete inputs: `paid` round-trips and the
unrecognized string `"bogus"` reads back as `failed`. -/
theorem status_from_str_roundtrip_and_default_witness :
    RecycleStatus.from_str (RecycleStatus.paid.as_str) = .paid ∧
    RecycleStatus.from_str "bogus" = .failed :=
  ⟨status_from_str_roundtrip_and_default.1 .paid,
   status_from_str_roundtrip_and_default.2 "bogus" (by decide)⟩

/-- C2 counterexample: a deposit transaction confirmed at block 950000,
above the cutoff 900000, whose single parent UTXO was created at block
800000, is NOT transitioned to donation — the monitor records it as an
eligible deposit — because `check_deposits` tests the parent-UTXO creation
height (`get_max_input_creation_height`), not the deposit transaction's
own block height. -/
theorem monitor_cutoff_uses_deposit_height_counterexample :
    depAt950k.block_height = some 950000 ∧
    cfgFix.cutoffBlockHeight ≤ 950000 ∧
    monitorDecideAwaiting cfgFix chainOldParent depAt950k =
      .record "d" 500 3 (some 800000) (some 400) ∧
    (applyMonitorAction cfgFix initialRecycle
        (monitorDecideAwaiting cfgFix chainOldParent depAt950k)).status ≠
      .donation := by decide

/-- C2 amended: for a deposit with a confirmed block height, the monitor
(in either pending arm, eligibility not yet decided) emits a donation with
reason `block_height` if and only if the maximum creation height of the
deposit transaction's parent UTXOs is determined and is at or above
`cutoff_block_height`; the deposit transaction's own block height is not
consulted. -/
theorem monitor_cutoff_on_parent_creation_height (cfg : Config)
    (chain : ElectrumView) (dep : DepositInfo) (h : Nat)
    (hbh : dep.block_height = some h) :
    ((∃ txid amt bh mi, monitorDecideAwaiting cfg chain dep =
        .donate txid amt bh mi "block_height") ↔
      ∃ ch, getMaxInputCreationHeight chain dep.txid = some ch ∧
        cfg.cutoffBlockHeight ≤ ch) ∧
    ((∃ txid amt bh mi, monitorDecideConfirming cfg chain none dep =
        .donate txid amt bh mi "block_height") ↔
      ∃ ch, getMaxInputCreationHeight chain dep.txid = some ch ∧
        cfg.cutoffBlockHeight ≤ ch) := by
  constructor
  · unfold monitorDecideAwaiting
    rw [hbh]
    rcases hc : getMaxInputCreationHeight chain dep.txid with _ | ch
    · simp
    · by_cases hcut : cfg.cutoffBlockHeight ≤ ch
      · simp only [hcut, if_true]
        exact ⟨fun _ => ⟨ch, rfl, hcut⟩, fun _ => ⟨dep.txid, dep.amount_sats, some ch, none, rfl⟩⟩
      · rcases hv : getMaxInputValue chain dep.txid with _ | v
        · simp [hcut]
        · by_cases hlim : cfg.maxInputSats ≤ v <;> simp [hcut, hlim]
  · unfold monitorDecideConfirming
    rw [hbh]
    simp only [Option.isSome_some, Option.isNone_none, Bool.and_self, if_true]
    rcases hc : getMaxInputCreationHeight chain dep.txid with _ | ch
    · rcases hv : getMaxInputValue chain dep.txid with _ | v
      · simp
      · by_cases hlim : cfg.maxInputSats ≤ v <;> simp [hlim]
    · by_cases hcut : cfg.cutoffBlockHeight ≤ ch
      · simp only [hcut, if_true]
        exact ⟨fun _ => ⟨ch, rfl, hcut⟩, fun _ => ⟨dep.txid, dep.amount_sats, some ch, none, rfl⟩⟩
      · rcases hv : getMaxInputValue chain dep.txid with _ | v
        · simp [hcut]
        · by_cases hlim : cfg.maxInputSats ≤ v <;> simp [hcut, hlim]

/-- Witness for C2 amended at a concrete chain: with the parent UTXO
created at block 950000, above the cutoff 900000, the awaiting arm donates
with reason `block_height`. -/
theorem monitor_cutoff_on_parent_creation_height_witness :
    ∃ txid amt bh mi, monitorDecideAwaiting cfgFix chainNewParent depAt950k =
      .donate txid amt bh mi "block_height" :=
  (monitor_cutoff_on_parent_creation_height cfgFix chainNewParent depAt950k
      950000 rfl).1.mpr ⟨950000, by decide, by decide⟩

/-- C5 counterexample: when no parent transaction of the deposit resolves,
`get_max_input_value` does return `None`, but the monitor never reaches the
input-size rule — `get_max_input_creation_height` is also `None` and the
awaiting arm marks the recycle donation with reason `block_height_unknown`
instead of recording `max_input_sats = NULL`. -/
theorem unresolved_parent_is_rejected_counterexample :
    getMaxInputValue chainNoParent "d" = none ∧
    getMaxInputCreationHeight chainNoParent "d" = none ∧
    monitorDecideAwaiting cfgFix chainNoParent depAt850k =
      .donate "d" 500 (some 850000) none "block_height_unknown" ∧
    (applyMonitorAction cfgFix initialRecycle
        (monitorDecideAwaiting cfgFix chainNoParent depAt850k)).status = .donation := by
  decide

/-- C5 amended: the benefit of the doubt applies only after the
creation-height rule has passed: for a confirmed deposit whose maximum
parent-UTXO creation height is determined and below the cutoff, a `None`
from `get_max_input_value` makes the awaiting arm record the deposit via
`update_deposit_detected` with `max_input_sats = NULL`, so the recycle
proceeds toward `confirming`/`confirmed`. -/
theorem benefit_of_doubt_on_input_value (cfg : Config) (chain : ElectrumView)
    (dep : DepositInfo) (h ch : Nat)
    (hbh : dep.block_height = some h)
    (hc : getMaxInputCreationHeight chain dep.txid = some ch)
    (hcut : ch < cfg.cutoffBlockHeight)
    (hv : getMaxInputValue chain dep.txid = none) :
    monitorDecideAwaiting cfg chain dep =
      .record dep.txid dep.amount_sats dep.confirmations (some ch) none ∧
    ∀ s : RecycleState,
      applyMonitorAction cfg s (monitorDecideAwaiting cfg chain dep) =
        updateDepositDetected s dep.txid dep.amount_sats dep.confirmations
          (some ch) none cfg.requiredConfirmations := by
  have hdec : monitorDecideAwaiting cfg chain dep =
      .record dep.txid dep.amount_sats dep.confirmations (some ch) none := by
    unfold monitorDecideAwaiting
    rw [hbh, hc, hv]
    simp [Nat.not_le.mpr hcut]
  exact ⟨hdec, fun s => by rw [hdec]; rfl⟩

/-- Witness for C5 amended: with the parent resolved to a zero-value
output created at block 800000 (below the cutoff), the value lookup is
`None` and the deposit is recorded with `max_input_sats = NULL`. -/
theorem benefit_of_doubt_on_input_value_witness :
    monitorDecideAwaiting cfgFix chainZeroParent depAt950k =
      .record "d" 500 3 (some 800000) none :=
  (benefit_of_doubt_on_input_value cfgFix chainZeroParent depAt950k 950000 800000
    rfl (by decide) (by decide) (by decide)).1

/-- On a row with no stored donation reason, applying any monitor action
of the shapes the two decision functions can produce yields a row
satisfying the donation invariant. -/
theorem donationInv_applyAction (cfg : Config) (s : RecycleState) (a : MonitorAction)
    (hnone : s.donationReason = none)
    (hshape :
      (∃ t amt bh, a = .donate t amt (some bh) none "block_height" ∧
        cfg.cutoffBlockHeight ≤ bh) ∨
      (∃ t amt bh v, a = .donate t amt bh (some v) "input_too_large" ∧
        cfg.maxInputSats ≤ v) ∨
      (∃ t amt bh, a = .donate t amt (some bh) none "block_height_unknown") ∨
      (∃ t amt confs bh mi, a = .record t amt confs bh mi) ∨
      (∃ confs, a = .updateConfs confs)) :
    DonationInv cfg (applyMonitorAction cfg s a) := by
  rcases hshape with ⟨t, amt, bh, rfl, hcut⟩ | ⟨t, amt, bh, v, rfl, hlim⟩ |
    ⟨t, amt, bh, rfl⟩ | ⟨t, amt, confs, bh, mi, rfl⟩ | ⟨confs, rfl⟩
  · refine ⟨fun r hr => ?_, fun _ => by simp [applyMonitorAction, updateAsDonation]⟩
    replace hr : some "block_height" = some r := hr
    injection hr with hr
    subst hr
    exact ⟨rfl, .inl ⟨rfl, bh, rfl, hcut⟩⟩
  · refine ⟨fun r hr => ?_, fun _ => by simp [applyMonitorAction, updateAsDonation]⟩
    replace hr : some "input_too_large" = some r := hr
    injection hr with hr
    subst hr
    exact ⟨rfl, .inr (.inl ⟨rfl, v, rfl, hlim⟩)⟩
  · refine ⟨fun r hr => ?_, fun _ => by simp [applyMonitorAction, updateAsDonation]⟩
    replace hr : some "block_height_unknown" = some r := hr
    injection hr with hr
    subst hr
    exact ⟨rfl, .inr (.inr rfl)⟩
  · refine ⟨fun r hr => ?_, fun hdon => ?_⟩
    · replace hr : s.donationReason = some r := hr
      rw [hnone] at hr
      exact Option.noConfusion hr
    · exfalso
      replace hdon :
          (if cfg.requiredConfirmations ≤ confs then RecycleStatus.confirmed
            else RecycleStatus.confirming) = RecycleStatus.donation := hdon
      split at hdon <;> exact RecycleStatus.noConfusion hdon
  · refine ⟨fun r hr => ?_, fun hdon => ?_⟩
    · replace hr : s.donationReason = some r := hr
      rw [hnone] at hr
      exact Option.noConfusion hr
    · exfalso
      replace hdon :
          (if cfg.requiredConfirmations ≤ confs then RecycleStatus.confirmed
            else RecycleStatus.confirming) = RecycleStatus.donation := hdon
      split at hdon <;> exact RecycleStatus.noConfusion hdon

/-- Every step from a row satisfying the donation invariant yields a row
satisfying it. -/
theorem donationInv_preserved (cfg : Config) {s s' : RecycleState}
    (hstep : Step cfg s s') (hinv : DonationInv cfg s) : DonationInv cfg s' := by
  have reasonNone : s.status ≠ .donation → s.donationReason = none := by
    intro hne
    rcases hr : s.donationReason with _ | r
    · rfl
    · exact absurd (hinv.1 r hr).1 hne
  cases hstep with
  | monitorAwaiting chain dep s hst =>
      have hnone := reasonNone (by rw [hst]; exact fun h => RecycleStatus.noConfusion h)
      refine donationInv_applyAction cfg s _ hnone ?_
      rcases monitorDecideAwaiting_shape cfg chain dep with
        ⟨bh, heq, hcut⟩ | ⟨bh, v, heq, hlim⟩ | ⟨bh, heq⟩ | ⟨bh, mi, heq⟩
      · exact .inl ⟨_, _, bh, heq, hcut⟩
      · exact .inr (.inl ⟨_, _, some bh, v, heq, hlim⟩)
      · exact .inr (.inr (.inl ⟨_, _, bh, heq⟩))
      · exact .inr (.inr (.inr (.inl ⟨_, _, _, bh, mi, heq⟩)))
  | monitorConfirming chain dep s hst =>
      have hnone := reasonNone (by rw [hst]; exact fun h => RecycleStatus.noConfusion h)
      refine donationInv_applyAction cfg s _ hnone ?_
      rcases monitorDecideConfirming_shape cfg chain s.depositBlockHeight dep with
        ⟨bh, heq, hcut⟩ | ⟨bh, v, heq, hlim⟩ | heq
      · exact .inl ⟨_, _, bh, heq, hcut⟩
      · exact .inr (.inl ⟨_, _, bh, v, heq, hlim⟩)
      · exact .inr (.inr (.inr (.inr ⟨_, heq⟩)))
  | processorMarkFailed s hst hmax =>
      have hnone := reasonNone (by rw [hst]; exact fun h => RecycleStatus.noConfusion h)
      refine ⟨fun r hr => ?_, fun hdon => ?_⟩
      · replace hr : s.donationReason = some r := hr
        rw [hnone] at hr
        exact Option.noConfusion hr
      · exact absurd (show RecycleStatus.failed = .donation from hdon)
          (fun h => RecycleStatus.noConfusion h)
  | processorAttemptFailed s amt hst hlt hamt =>
      have hnone := reasonNone (by rw [hst]; exact fun h => RecycleStatus.noConfusion h)
      refine ⟨fun r hr => ?_, fun hdon => ?_⟩
      · replace hr : s.donationReason = some r := hr
        rw [hnone] at hr
        exact Option.noConfusion hr
      · replace hdon : s.status = .donation := hdon
        rw [hst] at hdon
        exact absurd hdon (fun h => RecycleStatus.noConfusion h)
  | processorAttemptPaid s amt resp r hst hlt hamt hr =>
      have hnone := reasonNone (by rw [hst]; exact fun h => RecycleStatus.noConfusion h)
      refine ⟨fun r hr => ?_, fun hdon => ?_⟩
      · replace hr : s.donationReason = some r := hr
        rw [hnone] at hr
        exact Option.noConfusion hr
      · exact absurd (show RecycleStatus.paid = .donation from hdon)
          (fun h => RecycleStatus.noConfusion h)

/-- The monitor write operations never touch the payment-attempt
counter. -/
theorem applyMonitorAction_paymentAttempts (cfg : Config) (s : RecycleState)
    (a : MonitorAction) :
    (applyMonitorAction cfg s a).paymentAttempts = s.paymentAttempts := by
  cases a <;> rfl

/-- The monitor write operations never touch the payout amount. -/
theorem applyMonitorAction_payoutAmount (cfg : Config) (s : RecycleState)
    (a : MonitorAction) :
    (applyMonitorAction cfg s a).payoutAmount = s.payoutAmount := by
  cases a <;> rfl

/-- C4 counterexample: a deposit confirmed at block 850000 (below the
cutoff 900000) whose parent transactions cannot be resolved is marked
donation with the third reason `block_height_unknown`; the recorded height
is below the cutoff and `max_input_sats` is NULL, so neither of the
claim's two cases holds. -/
theorem donation_reason_third_value_counterexample :
    Step cfgFix initialRecycle
      (applyMonitorAction cfgFix initialRecycle
        (monitorDecideAwaiting cfgFix chainNoParent depAt850k)) ∧
    (applyMonitorAction cfgFix initialRecycle
        (monitorDecideAwaiting cfgFix chainNoParent depAt850k)).status = .donation ∧
    (applyMonitorAction cfgFix initialRecycle
        (monitorDecideAwaiting cfgFix chainNoParent depAt850k)).donationReason =
      some "block_height_unknown" ∧
    "block_height_unknown" ∉ ["block_height", "input_too_large"] ∧
    (applyMonitorAction cfgFix initialRecycle
        (monitorDecideAwaiting cfgFix chainNoParent depAt850k)).depositBlockHeight =
      some 850000 ∧
    850000 < cfgFix.cutoffBlockHeight ∧
    (applyMonitorAction cfgFix initialRecycle
        (monitorDecideAwaiting cfgFix chainNoParent depAt850k)).maxInputSats = none :=
  ⟨.monitorAwaiting chainNoParent depAt850k initialRecycle rfl,
   by decide, by decide, by decide, by decide, by decide, by decide⟩

/-- C4 amended: on every reachable recycle row, a stored `donation_reason`
implies status `donation` and is `block_height` (with the recorded height
at or above the cutoff), `input_too_large` (with the recorded maximum
input at or above the configured limit), or `block_height_unknown`
(parent-UTXO creation height undetermined); rows in any other status carry
no reason, and every donation row carries one. -/
theorem donation_reason_invariant (cfg : Config) (s : RecycleState)
    (hreach : Relation.ReflTransGen (Step cfg) initialRecycle s) :
    DonationInv cfg s := by
  induction hreach with
  | refl =>
      refine ⟨fun r hr => ?_, fun hdon => ?_⟩
      · exact Option.noConfusion (show (none : Option String) = some r from hr)
      · exact absurd (show RecycleStatus.awaitingDeposit = .donation from hdon)
          (by decide)
  | tail hab hbc ih => exact donationInv_preserved cfg hbc ih

/-- Witness for C4 amended: the invariant holds at the donation row
reached in one monitor step from a fresh recycle on the
unresolvable-parent chain. -/
theorem donation_reason_invariant_witness :
    DonationInv cfgFix
      (applyMonitorAction cfgFix initialRecycle
        (monitorDecideAwaiting cfgFix chainNoParent depAt950k)) :=
  donation_reason_invariant cfgFix _
    (Relation.ReflTransGen.single
      (.monitorAwaiting chainNoParent depAt950k initialRecycle rfl))

/-- C8: every step of either worker starts from a non-terminal row — the
monitor's `find_pending_deposits` selects only `awaiting_deposit` and
`confirming` rows and the processor selects only `confirmed` rows, so
`donation`, `paid` and `failed` rows are never selected or written again —
and every step is monotone in the §4.5 status order, so a status never
regresses. -/
theorem terminal_never_rewritten_and_status_monotone (cfg : Config)
    (s s' : RecycleState) (hstep : Step cfg s s') :
    s.status.isTerminal = false ∧ s.status.rank ≤ s'.status.rank := by
  cases hstep with
  | monitorAwaiting chain dep s hst =>
      refine ⟨by rw [hst]; rfl, ?_⟩
      rw [hst]
      exact Nat.zero_le _
  | monitorConfirming chain dep s hst =>
      refine ⟨by rw [hst]; rfl, ?_⟩
      rw [hst]
      rcases monitorDecideConfirming_shape cfg chain s.depositBlockHeight dep with
        ⟨bh, heq, _⟩ | ⟨bh, v, heq, _⟩ | heq <;> rw [heq]
      · show RecycleStatus.confirming.rank ≤ RecycleStatus.donation.rank
        decide
      · show RecycleStatus.confirming.rank ≤ RecycleStatus.donation.rank
        decide
      · show RecycleStatus.confirming.rank ≤
          (if cfg.requiredConfirmations ≤ dep.confirmations then
            RecycleStatus.confirmed else RecycleStatus.confirming).rank
        split <;> decide
  | processorMarkFailed s hst hmax =>
      refine ⟨by rw [hst]; rfl, ?_⟩
      rw [hst]
      show RecycleStatus.confirmed.rank ≤ RecycleStatus.failed.rank
      decide
  | processorAttemptFailed s amt hst hlt hamt =>
      exact ⟨by rw [hst]; rfl, Nat.le_refl _⟩
  | processorAttemptPaid s amt resp r hst hlt hamt hr =>
      refine ⟨by rw [hst]; rfl, ?_⟩
      rw [hst]
      show RecycleStatus.confirmed.rank ≤ RecycleStatus.paid.rank
      decide

/-- Witness for C8 at a concrete step: the `mark_failed` transition from a
`confirmed` fixture row starts from a non-terminal status and does not
lower the rank. -/
theorem terminal_never_rewritten_and_status_monotone_witness :
    confirmedFix.status.isTerminal = false ∧
    confirmedFix.status.rank ≤ (markFailed confirmedFix).status.rank :=
  terminal_never_rewritten_and_status_monotone cfgFix confirmedFix
    (markFailed confirmedFix) (.processorMarkFailed confirmedFix rfl (by decide))

/-- C7: on every recycle reachable from creation, `payment_attempts` never
exceeds `MAX_PAYMENT_ATTEMPTS = 10` — the processor increments the
persisted counter only under the guard `payment_attempts < 10` checked
before the attempt — and the only step from a `confirmed` row observed
with `payment_attempts ≥ 10` is `mark_failed`, with no invoice fetch or
payment attempt. -/
theorem payment_attempts_bounded (cfg : Config) :
    (∀ s : RecycleState, Relation.ReflTransGen (Step cfg) initialRecycle s →
      s.paymentAttempts ≤ maxPaymentAttempts) ∧
    (∀ s s' : RecycleState, Step cfg s s' → s.status = .confirmed →
      maxPaymentAttempts ≤ s.paymentAttempts → s' = markFailed s) := by
  constructor
  · have hpres : ∀ s s' : RecycleState, Step cfg s s' →
        s.paymentAttempts ≤ maxPaymentAttempts →
        s'.paymentAttempts ≤ maxPaymentAttempts := by
      intro s s' hstep hb
      cases hstep with
      | monitorAwaiting chain dep s hst =>
          rw [applyMonitorAction_paymentAttempts]
          exact hb
      | monitorConfirming chain dep s hst =>
          rw [applyMonitorAction_paymentAttempts]
          exact hb
      | processorMarkFailed s hst hmax => exact hb
      | processorAttemptFailed s amt hst hlt hamt => exact hlt
      | processorAttemptPaid s amt resp r hst hlt hamt hr => exact hlt
    intro s hreach
    induction hreach with
    | refl => decide
    | tail hab hbc ih => exact hpres _ _ hbc ih
  · intro s s' hstep hst hge
    cases hstep with
    | monitorAwaiting chain dep s hst' =>
        rw [hst'] at hst
        exact absurd hst (by decide)
    | monitorConfirming chain dep s hst' =>
        rw [hst'] at hst
        exact absurd hst (by decide)
    | processorMarkFailed s _ _ => rfl
    | processorAttemptFailed s amt _ hlt _ => exact absurd hge (Nat.not_le.mpr hlt)
    | processorAttemptPaid s amt resp r _ hlt _ _ =>
        exact absurd hge (Nat.not_le.mpr hlt)

/-- Witness for C7: the bound holds at the freshly created row, and the
fixture `confirmed` row with ten recorded attempts steps only to
`mark_failed`. -/
theorem payment_attempts_bounded_witness :
    initialRecycle.paymentAttempts ≤ maxPaymentAttempts ∧
    markFailed confirmedFix = markFailed confirmedFix :=
  ⟨(payment_attempts_bounded cfgFix).1 initialRecycle .refl,
   (payment_attempts_bounded cfgFix).2 confirmedFix (markFailed confirmedFix)
     (.processorMarkFailed confirmedFix rfl (by decide)) rfl (by decide)⟩

/-- C6 counterexample: the processor computes the payout with `f64`
arithmetic, `(deposit as f64 * multiplier) as u64`; for the deposit
`139344047876599` sats at the default multiplier `1.01` the float product
rounds up across the integer boundary and the recycle is marked paid with
`140737488355365` sats — one more than
`floor(139344047876599 × 1.01) = 140737488355364`. -/
theorem payout_exceeds_floor_counterexample :
    Step cfgFix bigDepositFix
      (markPaid (incrementPaymentAttempts bigDepositFix)
        (payoutSats cfgFix.payoutMultiplierNum 139344047876599) zeros64 zeros64) ∧
    (markPaid (incrementPaymentAttempts bigDepositFix)
        (payoutSats cfgFix.payoutMultiplierNum 139344047876599) zeros64
        zeros64).status = .paid ∧
    (markPaid (incrementPaymentAttempts bigDepositFix)
        (payoutSats cfgFix.payoutMultiplierNum 139344047876599) zeros64
        zeros64).payoutAmount = some 140737488355365 ∧
    139344047876599 * 101 / 100 = 140737488355364 :=
  ⟨.processorAttemptPaid bigDepositFix 139344047876599 respOkFix
      ⟨zeros64, zeros64⟩ rfl (by decide) rfl rfl,
   rfl, by decide, by decide⟩

/-- C6 amended: a step changes `payout_amount_sats` only by `mark_paid` —
the new status is `paid` and the persisted payout is the `u64` truncation
of the `f64` product of the deposit amount with the multiplier — and for
the spec's example values this truncation coincides with the exact floor:
a 500-sat deposit at multiplier 1.01 pays exactly 505 sats. -/
theorem payout_is_f64_truncation (cfg : Config) :
    (∀ s s' : RecycleState, Step cfg s s' → s'.payoutAmount ≠ s.payoutAmount →
      ∃ amt, s.depositAmount = some amt ∧ s'.status = .paid ∧
        s'.payoutAmount = some (payoutSats cfg.payoutMultiplierNum amt)) ∧
    payoutSats f64OnePointOhOneNum 500 = 505 ∧
    payoutSats f64OnePointOhOneNum 700 = 707 := by
  refine ⟨?_, by decide, by decide⟩
  intro s s' hstep hne
  cases hstep with
  | monitorAwaiting chain dep s hst =>
      exact absurd (applyMonitorAction_payoutAmount cfg s _) hne
  | monitorConfirming chain dep s hst =>
      exact absurd (applyMonitorAction_payoutAmount cfg s _) hne
  | processorMarkFailed s hst hmax => exact absurd rfl hne
  | processorAttemptFailed s amt hst hlt hamt => exact absurd rfl hne
  | processorAttemptPaid s amt resp r hst hlt hamt hr => exact ⟨amt, hamt, rfl, rfl⟩

/-- Witness for C6 amended at the concrete paid step of the fixture row:
the written payout is the `f64` truncation for the stored deposit. -/
theorem payout_is_f64_truncation_witness :
    ∃ amt, bigDepositFix.depositAmount = some amt ∧
      (markPaid (incrementPaymentAttempts bigDepositFix)
        (payoutSats cfgFix.payoutMultiplierNum 139344047876599) zeros64
        zeros64).status = .paid ∧
      (markPaid (incrementPaymentAttempts bigDepositFix)
        (payoutSats cfgFix.payoutMultiplierNum 139344047876599) zeros64
        zeros64).payoutAmount = some (payoutSats cfgFix.payoutMultiplierNum amt) :=
  (payout_is_f64_truncation cfgFix).1 bigDepositFix _
    (.processorAttemptPaid bigDepositFix 139344047876599 respOkFix
      ⟨zeros64, zeros64⟩ rfl (by decide) rfl rfl)
    (Option.some_ne_none _)

/-- C1: `pay_invoice` fills the `payment_hash` field of a success result
with the response's preimage itself (src/lightning/nwc.rs lines 142-147) —
the deserialized result carries no payment hash and no SHA-256 check is
performed — so `mark_paid` persists `payment_hash = payment_preimage`, and
the claimed property `SHA256(hex_decode(preimage)) = hex_decode(hash)`
fails on any success (here the all-zero preimage, whose SHA-256 is not
itself). -/
theorem nwc_payment_hash_is_preimage_bug :
    handleNwcResponse respOkFix =
      some (.ok { preimage := zeros64, payment_hash := zeros64 }) ∧
    (markPaid confirmedFix 505 zeros64 zeros64).paymentPreimage =
      (markPaid confirmedFix 505 zeros64 zeros64).paymentHash ∧
    hexDecode zeros64 = List.replicate 32 0 ∧
    sha256 (hexDecode zeros64) ≠ hexDecode zeros64 :=
  ⟨rfl, rfl, by decide, by decide⟩

/-- C9: `increment_address_index` is a `SELECT` followed by a separate
`UPDATE` with no transaction around the pair, so the interleaving
`SELECT₁, SELECT₂, UPDATE₁, UPDATE₂` of two concurrent creation requests
is a run of the model in which both calls return the same address index
`0` — the claimed distinctness fails. -/
theorem address_index_allocation_race :
    AllocStep ⟨0, .notStarted, .notStarted⟩ ⟨0, .readValue 0, .notStarted⟩ ∧
    AllocStep ⟨0, .readValue 0, .notStarted⟩ ⟨0, .readValue 0, .readValue 0⟩ ∧
    AllocStep ⟨0, .readValue 0, .readValue 0⟩ ⟨1, .returned 0, .readValue 0⟩ ∧
    AllocStep ⟨1, .returned 0, .readValue 0⟩ ⟨2, .returned 0, .returned 0⟩ ∧
    (AllocSys.mk 2 (.returned 0) (.returned 0)).call1 = .returned 0 ∧
    (AllocSys.mk 2 (.returned 0) (.returned 0)).call2 = .returned 0 :=
  ⟨.select1 0 .notStarted, .select2 0 (.readValue 0), .update1 0 0 (.readValue 0),
   .update2 1 0 (.returned 0), rfl, rfl⟩

end UtxoRecycler
